import Mathlib

/-!
Verification development for the MorpheusEngine turn-orchestrating router.

The definitions below are a shallow embedding of the backend orchestrator
(`apps/backend/src/router/orchestrator.ts`), the module client
(`postJson` and the `invoke*` wrappers), the per-run session store
(`apps/backend/src/engine.ts`, session-store section) and the HTTP
request handlers (`apps/backend/src/index.ts`).

Modelling conventions:
* The per-run SQLite store is modelled as `RunStore`, a record of row lists
  kept in insertion (rowid) order.  SQL queries are translated operation by
  operation (filters, `MAX`, `ORDER BY ... LIMIT 1`, `ORDER BY step_number
  ASC, id ASC`).
* Module services are external HTTP collaborators; a `ModuleOracle` records,
  for each pipeline stage, either the module's parsed response or the error
  (`network | timeout | http | schema`) thrown by `postJson`/schema parse.
  A thrown error propagates; the store keeps whatever was written before it.
* `randomUUID()` is modelled by an explicit `uuid` argument; ISO timestamps,
  `request`/`response` payloads of pipeline events and the
  `llmConversations` debug record are carried by no claim and are omitted
  from the event model.
* JavaScript string truthiness (`if (str)`) is modelled by `optStringTruthy`
  (false on `undefined`/`null` and on the empty string); nullish coalescing
  (`??`) is `Option.getD`/`orElse`.
-/

namespace Morpheus

/-- Decidable equality for `Except` results (absent from core). -/
instance {ε α : Type _} [DecidableEq ε] [DecidableEq α] : DecidableEq (Except ε α) := fun x y =>
  match x, y with
  | .error a, .error b =>
    if h : a = b then isTrue (by rw [h]) else isFalse (by simp [h])
  | .ok a, .ok b =>
    if h : a = b then isTrue (by rw [h]) else isFalse (by simp [h])
  | .error _, .ok _ => isFalse (fun h => Except.noConfusion h)
  | .ok _, .error _ => isFalse (fun h => Except.noConfusion h)

/-- The closed enum of consequence tags (`packages/shared/src/schemas.ts`,
`ActionCandidateSchema.consequenceTags`). -/
inductive ConsequenceTag
  | needsClarification
  | noTargetInScope
  | partialSuccessOnly
  | highRiskExposure
  | resourceCostApplies
  | socialBacklash
  | noiseGenerated
deriving DecidableEq, Repr

/-- One intent candidate (`ActionCandidateSchema`).  `confidence` and
`params` are opaque to the orchestrator and omitted. -/
structure ActionCandidate where
  actorId : String
  intent : String
  consequenceTags : List ConsequenceTag
  clarificationQuestion : Option String
deriving DecidableEq, Repr

/-- Output of the intent extractor (`ActionCandidatesSchema`). -/
structure ActionCandidates where
  rawInput : String
  candidates : List ActionCandidate
deriving DecidableEq, Repr

/-- Assessment status enum (`LoremasterAssessmentSchema.status`). -/
inductive AssessmentStatus
  | allowed
  | allowedWithConsequences
  | needsClarification
deriving DecidableEq, Repr

/-- One loremaster pre-check assessment (`LoremasterAssessmentSchema`). -/
structure LoremasterAssessment where
  candidateIndex : Nat
  status : AssessmentStatus
  consequenceTags : List ConsequenceTag
  clarificationQuestion : Option String
  rationale : String
deriving DecidableEq, Repr

/-- Loremaster pre-check output (`LoremasterOutputSchema`). -/
structure LoremasterOutput where
  assessments : List LoremasterAssessment
  summary : String
deriving DecidableEq, Repr

/-- One lore evidence item (`LoreEvidenceItemSchema`); its JSON number
`score` is opaque to the orchestrator and modelled as `Int`. -/
structure LoreEvidenceItem where
  source : String
  excerpt : String
  score : Int
deriving DecidableEq, Repr

/-- Lore retrieval output (`LoreRetrievalSchema`). -/
structure LoreRetrieval where
  query : String
  evidence : List LoreEvidenceItem
  summary : String
deriving DecidableEq, Repr

/-- Post-diff lore check output (`LoremasterPostOutputSchema`). -/
inductive LorePostStatus
  | consistent
  | needsAdjustment
deriving DecidableEq, Repr

structure LoremasterPostOutput where
  status : LorePostStatus
  rationale : String
  mustInclude : List String
  mustAvoid : List String
deriving DecidableEq, Repr

/-- Operation kind enum (`ProposedDiffOperationSchema.op`). -/
inductive OperationKind
  | upsertFact
  | removeFact
  | upsertEntity
  | observation
  | detection
deriving DecidableEq, Repr

/-- Write scope enum (`StateWriteScopeSchema`). -/
inductive WriteScope
  | world
  | viewPlayer
deriving DecidableEq, Repr

/-- Operation payload: the orchestrator itself only ever constructs the
observation payload of `buildRefusalProposal`; every module-produced payload
is opaque JSON it never inspects. -/
inductive OperationPayload
  | observationPayload (observerId : String) (text : String) (turn : Int)
  | opaquePayload (raw : String)
deriving DecidableEq, Repr

/-- One diff operation (`ProposedDiffOperationSchema`). -/
structure Operation where
  op : OperationKind
  scope : WriteScope
  payload : OperationPayload
  reason : String
deriving DecidableEq, Repr

/-- A module-proposed diff (`ProposedDiffSchema`). -/
structure ProposedDiff where
  moduleName : String
  operations : List Operation
deriving DecidableEq, Repr

/-- A committed diff (`CommittedDiffSchema`). -/
structure CommittedDiff where
  turn : Int
  operations : List Operation
  summary : String
deriving DecidableEq, Repr

/-- Arbiter decision enum (`ArbiterDecisionSchema`). -/
inductive ArbiterDecision
  | accept
  | requestRerun
  | chooseAlternative
deriving DecidableEq, Repr

/-- Arbiter module output (`ArbiterModuleResponseSchema.output`);
`selectionMetadata` is opaque and omitted. -/
structure ArbiterOutput where
  decision : ArbiterDecision
  selectedProposal : ProposedDiff
  rationale : String
  rerunHints : List String
deriving DecidableEq, Repr

/-- Proser module output (`ProserModuleResponseSchema.output`). -/
structure ProserOutput where
  narrationText : String
deriving DecidableEq, Repr

/-! ## Refusal derivation (`router/orchestrator.ts`) -/

/-- `deriveRefusalReasonFromIntent`, orchestrator.ts lines 87-98.  Note the
`find` predicate only matches `no_target_in_scope`, so the final
`return "Refused: action is ambiguous ..."` line is unreachable. -/
def deriveRefusalReasonFromIntent (intent : ActionCandidates) : Option String :=
  match intent.candidates.find?
      (fun candidate => decide (ConsequenceTag.noTargetInScope ∈ candidate.consequenceTags)) with
  | none => none
  | some rejectedCandidate =>
    if ConsequenceTag.noTargetInScope ∈ rejectedCandidate.consequenceTags then
      if rejectedCandidate.intent = "attack" then
        some "Refused: no valid attack target is currently in scope."
      else
        some ("Refused: no valid target is in scope for "
          ++ rejectedCandidate.intent.replace "_" " " ++ ".")
    else
      some "Refused: action is ambiguous and cannot be safely resolved."

/-- JavaScript `String.prototype.trim`: strip leading and trailing
whitespace (structurally recursive, unlike `String.trim`, so that proofs
can evaluate it). -/
def strTrim (s : String) : String :=
  ⟨((s.data.dropWhile Char.isWhitespace).reverse.dropWhile Char.isWhitespace).reverse⟩

/-- `deriveRefusalReasonFromLoremaster`, orchestrator.ts lines 100-114. -/
def deriveRefusalReasonFromLoremaster (intent : ActionCandidates)
    (loremaster : LoremasterOutput) : Option String :=
  match loremaster.assessments.find?
      (fun item => decide (ConsequenceTag.noTargetInScope ∈ item.consequenceTags)) with
  | none => none
  | some assessment =>
    if strTrim assessment.rationale ≠ "" then
      some ("Refused: " ++ strTrim assessment.rationale)
    else
      match intent.candidates.get? assessment.candidateIndex with
      | none => some "Refused: action cannot be resolved safely."
      | some candidate =>
        deriveRefusalReasonFromIntent
          { rawInput := intent.rawInput, candidates := [candidate] }

/-- JavaScript string truthiness for an optional string field:
`undefined`, `null` and `""` are falsy. -/
def optStringTruthy : Option String → Bool
  | none => false
  | some s => !(s = "")

/-! ## Pipeline stages (`router/orchestrator.ts`, `StepStage`, `STAGE_ORDER`) -/

inductive StepStage
  | intentExtractor
  | loremasterRetrieve
  | loremasterPre
  | defaultSimulator
  | loremasterPost
  | arbiter
  | proser
  | worldStateUpdate
deriving DecidableEq, Repr

/-- The fixed eight-stage order (`STAGE_ORDER`). -/
def STAGE_ORDER : List StepStage :=
  [.intentExtractor, .loremasterRetrieve, .loremasterPre, .defaultSimulator,
   .loremasterPost, .arbiter, .proser, .worldStateUpdate]

/-- The wire name of each stage, as written into pipeline events. -/
def stageName : StepStage → String
  | .intentExtractor => "intent_extractor"
  | .loremasterRetrieve => "loremaster_retrieve"
  | .loremasterPre => "loremaster_pre"
  | .defaultSimulator => "default_simulator"
  | .loremasterPost => "loremaster_post"
  | .arbiter => "arbiter"
  | .proser => "proser"
  | .worldStateUpdate => "world_state_update"

/-- `stageEndpoint`, orchestrator.ts 186-195. -/
def stageEndpoint : StepStage → String
  | .intentExtractor => "/invoke"
  | .loremasterRetrieve => "/retrieve"
  | .loremasterPre => "/pre"
  | .defaultSimulator => "/invoke"
  | .loremasterPost => "/post"
  | .arbiter => "/invoke"
  | .proser => "/invoke"
  | .worldStateUpdate => "persist"

/-! ## Checkpoint and trace payloads -/

/-- The per-turn checkpoint carried across stages (`PipelineCheckpoint`).
`llmConversations` is an opaque debug record carried by no claim; omitted. -/
structure Checkpoint where
  intent : Option ActionCandidates
  loreRetrieval : Option LoreRetrieval
  loremasterPre : Option LoremasterOutput
  proposal : Option ProposedDiff
  lorePost : Option LoremasterPostOutput
  committed : Option CommittedDiff
  arbiterDecision : Option ArbiterOutput
  narrationText : Option String
  warnings : List String
  refusalReason : Option String
deriving DecidableEq, Repr

/-- `emptyCheckpoint`, orchestrator.ts 155-160. -/
def emptyCheckpoint : Checkpoint :=
  { intent := none, loreRetrieval := none, loremasterPre := none, proposal := none,
    lorePost := none, committed := none, arbiterDecision := none, narrationText := none,
    warnings := [], refusalReason := none }

/-- `buildFallbackLorePost`, orchestrator.ts 142-149. -/
def buildFallbackLorePost : LoremasterPostOutput :=
  { status := .consistent,
    rationale := "Post-diff lore check skipped due to refusal path.",
    mustInclude := [], mustAvoid := [] }

/-- Status of one pipeline event (`PipelineStepStatusSchema`). -/
inductive PipelineStepStatus
  | ok
  | error
  | skipped
deriving DecidableEq, Repr

/-- One pipeline step event (`PipelineStepEventSchema`).  The `request`,
`response`, `warnings` and timestamp fields are carried by no claim and
are omitted from the event model. -/
structure PipelineStepEvent where
  stepNumber : Nat
  stage : String
  endpoint : String
  status : PipelineStepStatus
deriving DecidableEq, Repr

/-- The `module_trace` payload (`buildTurnTracePayload`,
orchestrator.ts 207-224). -/
structure TurnTrace where
  intent : Option ActionCandidates
  loreRetrieval : Option LoreRetrieval
  lorePre : Option LoremasterOutput
  lorePost : LoremasterPostOutput
  proposal : Option ProposedDiff
  arbiter : Option ArbiterOutput
  committed : Option CommittedDiff
  refusal : Option String
  warnings : List String
  narrationText : String
  pipelineEvents : List PipelineStepEvent
deriving DecidableEq, Repr

/-- `buildTurnTracePayload`, orchestrator.ts 207-224. -/
def buildTurnTracePayload (cp : Checkpoint) (pipelineEvents : List PipelineStepEvent) :
    TurnTrace :=
  { intent := cp.intent
    loreRetrieval := cp.loreRetrieval
    lorePre := cp.loremasterPre
    lorePost := cp.lorePost.getD buildFallbackLorePost
    proposal := cp.proposal
    arbiter := cp.arbiterDecision
    committed := cp.committed
    refusal := if optStringTruthy cp.refusalReason then cp.refusalReason else none
    warnings := cp.warnings
    narrationText := cp.narrationText.getD ""
    pipelineEvents := pipelineEvents }

/-! ## Per-run store rows (`engine.ts`, session schema lines 741-796) -/

/-- Payload of a row of the `events` table, by event type. -/
inductive EventPayload
  | playerInputPayload (id : String) (text : String)
  | moduleTracePayload (trace : TurnTrace)
  | committedDiffPayload (diff : Option CommittedDiff)
deriving DecidableEq, Repr

structure EventRow where
  turn : Int
  eventType : String
  payload : EventPayload
deriving DecidableEq, Repr

/-- `world_state` JSON of a snapshot row: the seed shape written by
`initializeRunStore` or the `{lastSummary}` shape written by
`persistTurnFinalState`. -/
inductive WorldStateJson
  | seedWorld (gameProjectId : String)
  | lastSummary (summary : String)
deriving DecidableEq, Repr

/-- `view_state` JSON of a snapshot row. -/
inductive ViewStateJson
  | seedView
  | lastObservation (operations : List Operation)
deriving DecidableEq, Repr

structure SnapshotRow where
  turn : Int
  worldState : WorldStateJson
  viewState : ViewStateJson
deriving DecidableEq, Repr

/-- A `turn_execution` row, merged with its parsed view
(`parseTurnExecutionRow` / `TurnExecutionStateSchema`); the `result` JSON
column is split into its `narrationText?` and `warnings` members. -/
structure TurnExecutionRow where
  runId : String
  turn : Int
  mode : String
  cursor : Int
  completed : Bool
  playerInput : String
  playerId : String
  requestId : String
  gameProjectId : String
  checkpoint : Checkpoint
  narrationText : Option String
  resultWarnings : List String
deriving DecidableEq, Repr

structure PipelineEventRow where
  runId : String
  turn : Int
  event : PipelineStepEvent
deriving DecidableEq, Repr

structure LoreRow where
  subject : String
  data : String
  source : String
deriving DecidableEq, Repr

/-- The per-run `world_state.db` store.  Each list holds the table's rows in
rowid (insertion) order. -/
structure RunStore where
  meta : List (String × String)
  events : List EventRow
  snapshots : List SnapshotRow
  lore : List LoreRow
  executions : List TurnExecutionRow
  pipelineEvents : List PipelineEventRow
deriving DecidableEq, Repr

def emptyRunStore : RunStore :=
  { meta := [], events := [], snapshots := [], lore := [], executions := [], pipelineEvents := [] }

/-! ## Store operations (`engine.ts`, session-store section) -/

/-- The rows of `pipeline_events` matching `run_id = ? AND turn = ?`. -/
def pipelineRowsFor (s : RunStore) (runId : String) (turn : Int) : List PipelineEventRow :=
  s.pipelineEvents.filter (fun row => decide (row.runId = runId ∧ row.turn = turn))

/-- Stable insertion into a list sorted by `stepNumber`. -/
def insertByStep (x : PipelineStepEvent) : List PipelineStepEvent → List PipelineStepEvent
  | [] => [x]
  | y :: ys => if y.stepNumber ≤ x.stepNumber then y :: insertByStep x ys else x :: y :: ys

/-- Stable sort by `stepNumber` (ties keep rowid order), modelling
`ORDER BY step_number ASC, id ASC`. -/
def sortByStep : List PipelineStepEvent → List PipelineStepEvent
  | [] => []
  | x :: xs => insertByStep x (sortByStep xs)

/-- `listPipelineEvents`, engine.ts 1215-1235. -/
def listPipelineEvents (s : RunStore) (runId : String) (turn : Int) :
    List PipelineStepEvent :=
  sortByStep ((pipelineRowsFor s runId turn).map (·.event))

/-- `appendPipelineEvent`, engine.ts 1200-1213. -/
def appendPipelineEvent (s : RunStore) (runId : String) (turn : Int)
    (event : PipelineStepEvent) : RunStore :=
  { s with pipelineEvents := s.pipelineEvents ++ [⟨runId, turn, event⟩] }

/-- Append a row to the `events` table. -/
def appendEventRow (s : RunStore) (turn : Int) (eventType : String)
    (payload : EventPayload) : RunStore :=
  { s with events := s.events ++ [⟨turn, eventType, payload⟩] }

/-- `SELECT COUNT(*) FROM events WHERE turn = ? AND event_type = 'player_input'`
(the per-run `events` table has no `run_id` column). -/
def countPlayerInputEvents (s : RunStore) (turn : Int) : Nat :=
  (s.events.filter (fun row => decide (row.turn = turn ∧ row.eventType = "player_input"))).length

/-- The `module_trace` payloads stored for a turn. -/
def moduleTraceEventsFor (s : RunStore) (turn : Int) : List TurnTrace :=
  s.events.filterMap (fun row =>
    if row.turn = turn then
      match row.payload with
      | .moduleTracePayload trace => some trace
      | _ => none
    else none)

/-- The `committed_diff` payloads stored for a turn. -/
def committedDiffEventsFor (s : RunStore) (turn : Int) : List (Option CommittedDiff) :=
  s.events.filterMap (fun row =>
    if row.turn = turn then
      match row.payload with
      | .committedDiffPayload diff => some diff
      | _ => none
    else none)

/-- The snapshot rows stored for a turn. -/
def snapshotRowsFor (s : RunStore) (turn : Int) : List SnapshotRow :=
  s.snapshots.filter (fun row => decide (row.turn = turn))

/-- `getTurnExecutionState`, engine.ts 1085-1112 (the `(run_id, turn)`
primary key makes the row unique). -/
def getTurnExecutionState (s : RunStore) (runId : String) (turn : Int) :
    Option TurnExecutionRow :=
  s.executions.find? (fun row => decide (row.runId = runId ∧ row.turn = turn))

/-- Errors thrown by `postJson` and the module-response schema parse
(logs.ts 173-191 and the `invoke*` wrappers). -/
inductive ModuleError
  | networkError
  | timeoutError
  | httpError (status : Int)
  | schemaError (role : String)
deriving DecidableEq, Repr

/-- Exceptions that can propagate out of the orchestrator. -/
inductive OrchestratorError
  | moduleFailure (stage : StepStage) (e : ModuleError)
  | requestSchemaFailure (stage : StepStage)
  | executionAlreadyExists
  | stepExecutionCompleted
deriving DecidableEq, Repr

structure CreateExecutionArgs where
  runId : String
  turn : Int
  mode : String
  playerInput : String
  playerId : String
  requestId : String
  gameProjectId : String
  checkpoint : Checkpoint

/-- `createTurnExecution`, engine.ts 1114-1146: a plain `INSERT` whose
`(run_id, turn)` primary key throws when the row already exists; the new
row has `cursor = 0`, `completed = 0`, `result = {warnings: []}`. -/
def createTurnExecution (s : RunStore) (args : CreateExecutionArgs) :
    Except OrchestratorError TurnExecutionRow × RunStore :=
  if (getTurnExecutionState s args.runId args.turn).isSome then
    (.error .executionAlreadyExists, s)
  else
    let row : TurnExecutionRow :=
      { runId := args.runId, turn := args.turn, mode := args.mode, cursor := 0,
        completed := false, playerInput := args.playerInput, playerId := args.playerId,
        requestId := args.requestId, gameProjectId := args.gameProjectId,
        checkpoint := args.checkpoint, narrationText := none, resultWarnings := [] }
    (.ok row, { s with executions := s.executions ++ [row] })

structure UpdateProgressArgs where
  runId : String
  turn : Int
  cursor : Int
  checkpoint : Checkpoint
  completed : Bool
  narrationText : Option String
  warnings : List String

/-- `updateTurnExecutionProgress`, engine.ts 1166-1198. -/
def updateTurnExecutionProgress (s : RunStore) (args : UpdateProgressArgs) : RunStore :=
  { s with executions := s.executions.map (fun row =>
      if row.runId = args.runId ∧ row.turn = args.turn then
        { row with
          cursor := args.cursor
          checkpoint := args.checkpoint
          completed := args.completed
          narrationText := args.narrationText
          resultWarnings := args.warnings }
      else row) }

/-! ## Pipeline driver (`router/orchestrator.ts`) -/

/-- `TurnInput` (orchestrator.ts 43-50).  `moduleBindings` only feeds the
URL registry, which the module oracle absorbs. -/
structure TurnInput where
  runId : String
  gameProjectId : String
  turn : Int
  playerInput : String
  playerId : String
deriving DecidableEq, Repr

/-- `arbiterCommit`, orchestrator.ts 116-122. -/
def arbiterCommit (turn : Int) (proposal : ProposedDiff) : CommittedDiff :=
  { turn := turn
    operations := proposal.operations
    summary := "Action resolved with router-managed module pipeline." }

/-- `buildRefusalProposal`, orchestrator.ts 124-140. -/
def buildRefusalProposal (input : TurnInput) (refusalReason : String) : ProposedDiff :=
  { moduleName := "refusal_handler"
    operations := [
      { op := .observation
        scope := .viewPlayer
        payload := .observationPayload input.playerId refusalReason input.turn
        reason := "action refused by deterministic invalid-action policy" }] }

/-- `shouldSkipStage`, orchestrator.ts 197-200 (`!checkpoint.refusalReason`
is JS truthiness, so an empty-string reason does not trigger the skip). -/
def shouldSkipStage (stage : StepStage) (cp : Checkpoint) : Bool :=
  if !(optStringTruthy cp.refusalReason) then false
  else decide (stage = .defaultSimulator ∨ stage = .loremasterPost
    ∨ stage = .arbiter ∨ stage = .proser)

/-- A successfully parsed module response: its `output` and `meta.warnings`
(the `debug.llmConversation` trace is carried by no claim). -/
structure ModuleInvocationResult (α : Type) where
  output : α
  warnings : List String
deriving DecidableEq, Repr

/-- The behaviour of the external module services for one turn: for each
stage endpoint, either the parsed response or the error thrown by
`postJson`/the response-schema parse. -/
structure ModuleOracle where
  intent : Except ModuleError (ModuleInvocationResult ActionCandidates)
  retrieve : Except ModuleError (ModuleInvocationResult LoreRetrieval)
  pre : Except ModuleError (ModuleInvocationResult LoremasterOutput)
  simulator : Except ModuleError (ModuleInvocationResult ProposedDiff)
  post : Except ModuleError (ModuleInvocationResult LoremasterPostOutput)
  arbiter : Except ModuleError (ModuleInvocationResult ArbiterOutput)
  proser : Except ModuleError (ModuleInvocationResult ProserOutput)

/-- `appendStepEvent`, orchestrator.ts 226-238: the event's `stepNumber` is
one more than the count of events already stored for `(runId, turn)`. -/
def appendStepEvent (s : RunStore) (input : TurnInput) (stage endpoint : String)
    (status : PipelineStepStatus) : PipelineStepEvent × RunStore :=
  let existing := listPipelineEvents s input.runId input.turn
  let nextEvent : PipelineStepEvent :=
    { stepNumber := existing.length + 1, stage := stage, endpoint := endpoint, status := status }
  (nextEvent, appendPipelineEvent s input.runId input.turn nextEvent)

/-- `persistTurnFinalState`, orchestrator.ts 529-550: append the
`module_trace` event, the `committed_diff` event, and a snapshot row
`{lastSummary}` / `{lastObservation}`. -/
def persistTurnFinalState (s : RunStore) (input : TurnInput) (cp : Checkpoint) : RunStore :=
  let pipelineEvents := listPipelineEvents s input.runId input.turn
  let trace := buildTurnTracePayload cp pipelineEvents
  let s1 := appendEventRow s input.turn "module_trace" (.moduleTracePayload trace)
  let s2 := appendEventRow s1 input.turn "committed_diff" (.committedDiffPayload cp.committed)
  { s2 with snapshots := s2.snapshots ++ [{
      turn := input.turn
      worldState := .lastSummary ((cp.committed.map (·.summary)).getD "")
      viewState := .lastObservation ((cp.committed.map (·.operations)).getD []) }] }

/-- `runStage`, orchestrator.ts 240-527.  A thrown module/request error
propagates with the store as written so far (nothing is appended for the
failing stage); each non-skipped stage builds its module request (failing
like the zod parse when a required checkpoint field is missing), invokes
the module, appends one `ok` event and merges its output into the
checkpoint. -/
def runStage (o : ModuleOracle) (input : TurnInput) (stage : StepStage)
    (cp : Checkpoint) (s : RunStore) : Except OrchestratorError Checkpoint × RunStore :=
  if shouldSkipStage stage cp then
    (.ok cp, (appendStepEvent s input (stageName stage) (stageEndpoint stage) .skipped).2)
  else
    match stage with
    | .intentExtractor =>
      match o.intent with
      | .error e => (.error (.moduleFailure stage e), s)
      | .ok result =>
        let s1 := (appendStepEvent s input (stageName stage) (stageEndpoint stage) .ok).2
        (.ok { cp with
            intent := some result.output
            refusalReason :=
              (deriveRefusalReasonFromIntent result.output).orElse (fun _ => cp.refusalReason)
            warnings := cp.warnings ++ result.warnings }, s1)
    | .loremasterRetrieve =>
      match cp.intent with
      | none => (.error (.requestSchemaFailure stage), s)
      | some _ =>
        match o.retrieve with
        | .error e => (.error (.moduleFailure stage e), s)
        | .ok result =>
          let s1 := (appendStepEvent s input (stageName stage) (stageEndpoint stage) .ok).2
          (.ok { cp with
              loreRetrieval := some result.output
              warnings := cp.warnings ++ result.warnings }, s1)
    | .loremasterPre =>
      match cp.intent, cp.loreRetrieval with
      | some intentValue, some _ =>
        match o.pre with
        | .error e => (.error (.moduleFailure stage e), s)
        | .ok result =>
          let refusalReason := deriveRefusalReasonFromLoremaster intentValue result.output
          let s1 := (appendStepEvent s input (stageName stage) (stageEndpoint stage) .ok).2
          (.ok { cp with
              loremasterPre := some result.output
              refusalReason := refusalReason
              warnings := cp.warnings ++ result.warnings
                ++ (if optStringTruthy refusalReason then
                      ["turn_refused: " ++ refusalReason.getD ""] else []) }, s1)
      | _, _ => (.error (.requestSchemaFailure stage), s)
    | .defaultSimulator =>
      match cp.intent, cp.loreRetrieval, cp.loremasterPre with
      | some _, some _, some _ =>
        match o.simulator with
        | .error e => (.error (.moduleFailure stage e), s)
        | .ok result =>
          let s1 := (appendStepEvent s input (stageName stage) (stageEndpoint stage) .ok).2
          (.ok { cp with
              proposal := some result.output
              warnings := cp.warnings ++ result.warnings }, s1)
      | _, _, _ => (.error (.requestSchemaFailure stage), s)
    | .loremasterPost =>
      match cp.intent, cp.loreRetrieval, cp.proposal with
      | some _, some _, some _ =>
        match o.post with
        | .error e => (.error (.moduleFailure stage e), s)
        | .ok result =>
          let s1 := (appendStepEvent s input (stageName stage) (stageEndpoint stage) .ok).2
          (.ok { cp with
              lorePost := some result.output
              warnings := cp.warnings ++ result.warnings }, s1)
      | _, _, _ => (.error (.requestSchemaFailure stage), s)
    | .arbiter =>
      match cp.intent, cp.loreRetrieval, cp.loremasterPre, cp.proposal with
      | some _, some _, some _, some _ =>
        match o.arbiter with
        | .error e => (.error (.moduleFailure stage e), s)
        | .ok result =>
          let selectedProposal := result.output.selectedProposal
          let committed := arbiterCommit input.turn selectedProposal
          let s1 := (appendStepEvent s input (stageName stage) (stageEndpoint stage) .ok).2
          (.ok { cp with
              proposal := some selectedProposal
              committed := some committed
              arbiterDecision := some result.output
              warnings := cp.warnings ++ result.warnings }, s1)
      | _, _, _, _ => (.error (.requestSchemaFailure stage), s)
    | .proser =>
      match (match cp.committed with
             | some c => some c
             | none => cp.proposal.map (arbiterCommit input.turn)) with
      | none => (.error (.requestSchemaFailure stage), s)
      | some committedForProser =>
        match cp.loreRetrieval with
        | none => (.error (.requestSchemaFailure stage), s)
        | some _ =>
          match o.proser with
          | .error e => (.error (.moduleFailure stage e), s)
          | .ok result =>
            let s1 := (appendStepEvent s input (stageName stage) (stageEndpoint stage) .ok).2
            (.ok { cp with
                committed := some committedForProser
                narrationText := some result.output.narrationText
                warnings := cp.warnings ++ result.warnings }, s1)
    | .worldStateUpdate =>
      let refusalReason := cp.refusalReason
      let proposalOpt : Option ProposedDiff :=
        if optStringTruthy refusalReason then
          some (buildRefusalProposal input (refusalReason.getD ""))
        else cp.proposal
      let lorePostOpt : Option LoremasterPostOutput :=
        if optStringTruthy refusalReason then some buildFallbackLorePost else cp.lorePost
      let committedOpt : Option CommittedDiff :=
        match cp.committed with
        | some c => some c
        | none => proposalOpt.map (arbiterCommit input.turn)
      match committedOpt with
      | none => (.error (.requestSchemaFailure stage), s)
      | some committed =>
        let narrationText := refusalReason.getD (cp.narrationText.getD "")
        let s1 := (appendStepEvent s input (stageName stage) (stageEndpoint stage) .ok).2
        let persistedCheckpoint : Checkpoint :=
          { cp with
            proposal := proposalOpt
            lorePost := lorePostOpt
            committed := some committed
            narrationText := some narrationText }
        (.ok persistedCheckpoint, persistTurnFinalState s1 input persistedCheckpoint)

/-- Sequential execution of a stage list, stopping at the first thrown
error (the `for` loop of `processTurnViaRouter`). -/
def runStages (o : ModuleOracle) (input : TurnInput) :
    List StepStage → Checkpoint → RunStore → Except OrchestratorError Checkpoint × RunStore
  | [], cp, s => (.ok cp, s)
  | stage :: rest, cp, s =>
    match runStage o input stage cp s with
    | (.error e, s1) => (.error e, s1)
    | (.ok cp1, s1) => runStages o input rest cp1 s1

/-- `ensurePlayerInputRecorded`, orchestrator.ts 552-565. -/
def ensurePlayerInputRecorded (s : RunStore) (uuid : String) (input : TurnInput) : RunStore :=
  if countPlayerInputEvents s input.turn > 0 then s
  else appendEventRow s input.turn "player_input" (.playerInputPayload uuid input.playerInput)

/-- The value returned by `processTurnViaRouter` (orchestrator.ts 689-700). -/
structure TurnResult where
  intent : Option ActionCandidates
  loreRetrieval : Option LoreRetrieval
  lorePre : Option LoremasterOutput
  lorePost : LoremasterPostOutput
  proposal : Option ProposedDiff
  committed : Option CommittedDiff
  warnings : List String
  narrationText : String
deriving DecidableEq, Repr

/-- `processTurnViaRouter`, orchestrator.ts 647-701 (normal mode): record
the player input and the synthetic `frontend_input` event, create the
execution row, run all eight stages, then flip the row to completed.
`uuid` stands for the `randomUUID()` values drawn during the call. -/
def processTurnViaRouter (o : ModuleOracle) (uuid : String) (input : TurnInput)
    (s : RunStore) : Except OrchestratorError TurnResult × RunStore :=
  let s1 := ensurePlayerInputRecorded s uuid input
  let s2 := (appendStepEvent s1 input "frontend_input" "frontend" .ok).2
  match createTurnExecution s2
      { runId := input.runId, turn := input.turn, mode := "normal"
        playerInput := input.playerInput, playerId := input.playerId
        requestId := uuid, gameProjectId := input.gameProjectId
        checkpoint := emptyCheckpoint } with
  | (.error e, s3) => (.error e, s3)
  | (.ok _, s3) =>
    match runStages o input STAGE_ORDER emptyCheckpoint s3 with
    | (.error e, s4) => (.error e, s4)
    | (.ok cp, s4) =>
      let s5 := updateTurnExecutionProgress s4
        { runId := input.runId, turn := input.turn
          cursor := (STAGE_ORDER.length : Int)
          checkpoint := cp, completed := true
          narrationText := cp.narrationText, warnings := cp.warnings }
      (.ok { intent := cp.intent
             loreRetrieval := cp.loreRetrieval
             lorePre := cp.loremasterPre
             lorePost := cp.lorePost.getD buildFallbackLorePost
             proposal := cp.proposal
             committed := cp.committed
             warnings := cp.warnings
             narrationText := cp.narrationText.getD "" }, s5)

/-- `startTurnStepExecution`, orchestrator.ts 567-601: return an existing
non-completed execution unchanged; throw on a completed one; otherwise
record player input + `frontend_input` and insert a paused step row. -/
def startTurnStepExecution (uuid : String) (input : TurnInput) (s : RunStore) :
    Except OrchestratorError TurnExecutionRow × RunStore :=
  match getTurnExecutionState s input.runId input.turn with
  | some existing =>
    if existing.completed then (.error .stepExecutionCompleted, s)
    else (.ok existing, s)
  | none =>
    let s1 := ensurePlayerInputRecorded s uuid input
    let s2 := (appendStepEvent s1 input "frontend_input" "frontend" .ok).2
    createTurnExecution s2
      { runId := input.runId, turn := input.turn, mode := "step"
        playerInput := input.playerInput, playerId := input.playerId
        requestId := uuid, gameProjectId := input.gameProjectId
        checkpoint := emptyCheckpoint }

/-! ## HTTP request handlers (`index.ts`) -/

/-- SQL `MAX` over a column (NULL on the empty table). -/
def maxInt? : List Int → Option Int
  | [] => none
  | x :: xs =>
    match maxInt? xs with
    | none => some x
    | some m => some (max x m)

/-- SQL `MIN`-style `ORDER BY turn ASC LIMIT 1` (NULL when no row). -/
def minInt? : List Int → Option Int
  | [] => none
  | x :: xs =>
    match minInt? xs with
    | none => some x
    | some m => some (min x m)

/-- `SELECT MAX(turn) as maxTurn FROM snapshots`. -/
def maxSnapshotTurn (s : RunStore) : Option Int :=
  maxInt? (s.snapshots.map (·.turn))

/-- `SELECT turn FROM turn_execution WHERE run_id = ? AND completed = 0
ORDER BY turn ASC LIMIT 1`. -/
def minIncompleteExecutionTurn (s : RunStore) (runId : String) : Option Int :=
  minInt? ((s.executions.filter
    (fun row => decide (row.runId = runId ∧ row.completed = false))).map (·.turn))

/-- Outcome of the `POST /turn` handler's checks (index.ts 214-299), after
the field-shape validation (`runId`/`playerInput`/`playerId` present,
integer `turn`) and run resolution have passed. -/
inductive TurnRequestOutcome
  | invalidTurnIndex
  | sequenceConflict (expectedTurn receivedTurn : Int)
  | processed
deriving DecidableEq, Repr

/-- `POST /turn` decision, index.ts 235-266: `400 INVALID_TURN_INDEX` when
`turn < 1`; `409 TURN_SEQUENCE_CONFLICT {expectedTurn, receivedTurn}` when
`turn ≠ (maxTurn ?? 0) + 1`; otherwise delegate to
`processTurnViaRouter`. -/
def turnRequestDecision (s : RunStore) (turn : Int) : TurnRequestOutcome :=
  if turn < 1 then .invalidTurnIndex
  else
    let expectedTurn := (maxSnapshotTurn s).getD 0 + 1
    if turn ≠ expectedTurn then .sequenceConflict expectedTurn turn
    else .processed

/-- Outcome of the `POST /turn/step/start` handler's checks
(index.ts 301-394), after field-shape validation and run resolution. -/
inductive StepStartOutcome
  | invalidTurnIndex
  | sequenceConflict (expectedTurn receivedTurn : Int)
  | stepConflict (activeTurn : Int)
  | started
deriving DecidableEq, Repr

/-- `POST /turn/step/start` decision, index.ts 322-366: the turn-sequencing
check runs first; only then is the oldest non-completed execution row
fetched, and `409 STEP_EXECUTION_CONFLICT {activeTurn}` returned when its
turn differs from the requested one; otherwise delegate to
`startTurnStepExecution`. -/
def stepStartDecision (s : RunStore) (runId : String) (turn : Int) : StepStartOutcome :=
  if turn < 1 then .invalidTurnIndex
  else
    let expectedTurn := (maxSnapshotTurn s).getD 0 + 1
    if turn ≠ expectedTurn then .sequenceConflict expectedTurn turn
    else
      match minIncompleteExecutionTurn s runId with
      | some activeTurn => if activeTurn ≠ turn then .stepConflict activeTurn else .started
      | none => .started

/-! ## Run initialization (`engine.ts` 876-898) -/

/-- `INSERT OR REPLACE` into `meta(key PRIMARY KEY, value)`. -/
def metaUpsert (m : List (String × String)) (key value : String) : List (String × String) :=
  (m.filter (fun kv => decide (kv.1 ≠ key))) ++ [(key, value)]

/-- `INSERT OR REPLACE` into `lore(subject PRIMARY KEY, data, source)`. -/
def loreUpsert (rows : List LoreRow) (row : LoreRow) : List LoreRow :=
  (rows.filter (fun r => decide (r.subject ≠ row.subject))) ++ [row]

/-- `initializeRunStore`, engine.ts 876-898.  `loreSeed` stands for the
rows `seedLoreTable` derives from the game project's `lore/world.md` and
`lore/default_lore_entries.csv` files.  The seed-snapshot statement is
`INSERT OR IGNORE INTO snapshots (turn, world_state, view_state) VALUES (0, ...)`;
`OR IGNORE` only suppresses a row that violates a constraint, and the
`snapshots` table (engine.ts 756-762) has the sole constraint
`id INTEGER PRIMARY KEY AUTOINCREMENT`, which a freshly auto-assigned id
never violates, so the insert is unconditional. -/
def initializeRunStore (gameProjectId runId : String) (loreSeed : List LoreRow)
    (s : RunStore) : RunStore :=
  let s1 := { s with
    meta := metaUpsert (metaUpsert s.meta "run_id" runId) "game_project_id" gameProjectId }
  let seedRow : SnapshotRow :=
    { turn := 0, worldState := .seedWorld gameProjectId, viewState := .seedView }
  let s2 := { s1 with snapshots := s1.snapshots ++ [seedRow] }
  { s2 with lore := loreSeed.foldl loreUpsert s2.lore }

/-! ## Concrete fixtures for counterexamples and witnesses -/

/-- The scenario input used by the integration fixtures. -/
def sampleInput : TurnInput :=
  { runId := "run-1", gameProjectId := "sandcrawler", turn := 1
    playerInput := "Look around.", playerId := "entity.player.captain" }

/-- A benign single-candidate intent output. -/
def sampleIntent : ActionCandidates :=
  { rawInput := "Look around."
    candidates := [{ actorId := "entity.player.captain", intent := "inspect_environment"
                     consequenceTags := [], clarificationQuestion := none }] }

/-- An intent output whose only candidate carries `no_target_in_scope`. -/
def sampleIntentRefusing : ActionCandidates :=
  { rawInput := "Attack."
    candidates := [{ actorId := "entity.player.captain", intent := "attack"
                     consequenceTags := [.noTargetInScope], clarificationQuestion := none }] }

def sampleLore : LoreRetrieval :=
  { query := "Look around."
    evidence := [{ source := "lore/world.md", excerpt := "Desert crawler world", score := 4 }]
    summary := "Retrieved lore." }

/-- A pre-check output that raises no refusal. -/
def samplePreAllowed : LoremasterOutput :=
  { assessments := [{ candidateIndex := 0, status := .allowed, consequenceTags := []
                      clarificationQuestion := none, rationale := "Valid action." }]
    summary := "Allowed." }

/-- A pre-check output whose first assessment carries `no_target_in_scope`. -/
def samplePreRefusing : LoremasterOutput :=
  { assessments := [{ candidateIndex := 0, status := .allowedWithConsequences
                      consequenceTags := [.noTargetInScope], clarificationQuestion := none
                      rationale := "No valid target is in scope." }]
    summary := "Refuse action." }

def sampleProposal : ProposedDiff :=
  { moduleName := "default_simulator"
    operations := [{ op := .observation, scope := .viewPlayer
                     payload := .observationPayload "entity.player.captain" "You scan the desert." 1
                     reason := "Scoped narrative observation." }] }

def samplePost : LoremasterPostOutput :=
  { status := .consistent, rationale := "Consistent with lore."
    mustInclude := ["desert"], mustAvoid := ["ocean"] }

def sampleArbiter : ArbiterOutput :=
  { decision := .accept, selectedProposal := sampleProposal
    rationale := "Accepted validated proposal.", rerunHints := [] }

def sampleProser : ProserOutput :=
  { narrationText := "Dust sweeps across the crawler deck as you survey the dunes." }

/-- An oracle whose modules all answer successfully, with no refusal. -/
def happyOracle : ModuleOracle :=
  { intent := .ok ⟨sampleIntent, []⟩
    retrieve := .ok ⟨sampleLore, []⟩
    pre := .ok ⟨samplePreAllowed, []⟩
    simulator := .ok ⟨sampleProposal, []⟩
    post := .ok ⟨samplePost, []⟩
    arbiter := .ok ⟨sampleArbiter, []⟩
    proser := .ok ⟨sampleProser, []⟩ }

/-- An oracle triggering the refusal path at the pre-check; the skipped
modules would fail if they were (incorrectly) called. -/
def refusalOracle : ModuleOracle :=
  { intent := .ok ⟨sampleIntentRefusing, []⟩
    retrieve := .ok ⟨sampleLore, []⟩
    pre := .ok ⟨samplePreRefusing, []⟩
    simulator := .error (.httpError 500)
    post := .error (.httpError 500)
    arbiter := .error (.httpError 500)
    proser := .error (.httpError 500) }

/-- An oracle whose `default_simulator` times out. -/
def simulatorTimeoutOracle : ModuleOracle :=
  { intent := .ok ⟨sampleIntent, []⟩
    retrieve := .ok ⟨sampleLore, []⟩
    pre := .ok ⟨samplePreAllowed, []⟩
    simulator := .error .timeoutError
    post := .ok ⟨samplePost, []⟩
    arbiter := .ok ⟨sampleArbiter, []⟩
    proser := .ok ⟨sampleProser, []⟩ }

/-- C5 failing input: one candidate carrying `needs_clarification` and no
candidate carrying `no_target_in_scope`. -/
def ambiguousOnlyIntent : ActionCandidates :=
  { rawInput := "Poke it."
    candidates := [{ actorId := "entity.player.captain", intent := "examine"
                     consequenceTags := [.needsClarification], clarificationQuestion := none }] }

/-- C2 checkpoint: the intent stage has already set a refusal reason, and
retrieval has run. -/
def c2Checkpoint : Checkpoint :=
  { emptyCheckpoint with
    intent := some sampleIntentRefusing
    loreRetrieval := some sampleLore
    refusalReason := some "Refused: no valid attack target is currently in scope."
    warnings := [] }

/-- C2 oracle: the pre-check yields no refusal. -/
def c2Oracle : ModuleOracle :=
  { happyOracle with pre := .ok ⟨samplePreAllowed, []⟩ }

/-- C3 witness store: seed snapshot plus a committed turn-1 snapshot, so the
expected next turn is 2. -/
def c3Store : RunStore :=
  { emptyRunStore with snapshots :=
      [{ turn := 0, worldState := .seedWorld "sandcrawler", viewState := .seedView },
       { turn := 1, worldState := .lastSummary "s", viewState := .lastObservation [] }] }

/-- A running (non-completed) step execution row for turn 1. -/
def runningExecutionRow : TurnExecutionRow :=
  { runId := "run-1", turn := 1, mode := "step", cursor := 2, completed := false
    playerInput := "Look around.", playerId := "entity.player.captain"
    requestId := "req-1", gameProjectId := "sandcrawler"
    checkpoint := emptyCheckpoint, narrationText := none, resultWarnings := [] }

/-- C7 counterexample store: only the seed snapshot exists (so the expected
turn is 1) while a step execution for turn 1 is running. -/
def c7Store : RunStore :=
  { emptyRunStore with
    snapshots := [{ turn := 0, worldState := .seedWorld "sandcrawler", viewState := .seedView }]
    executions := [runningExecutionRow] }

/-- C7 witness store: a snapshot for turn 1 exists although the turn-1
execution is still marked non-completed (the one reachable shape, via a
crash between the snapshot write and the completion flag), so the
sequencing check passes for turn 2. -/
def c7WitnessStore : RunStore :=
  { emptyRunStore with
    snapshots :=
      [{ turn := 0, worldState := .seedWorld "sandcrawler", viewState := .seedView },
       { turn := 1, worldState := .lastSummary "s", viewState := .lastObservation [] }]
    executions := [runningExecutionRow] }

/-- C9 store: holds the running turn-1 execution row. -/
def c9Store : RunStore :=
  { emptyRunStore with executions := [runningExecutionRow] }

/-- Fallback values used only to name the components of concrete runs. -/
def fallbackTurnResult : TurnResult :=
  { intent := none, loreRetrieval := none, lorePre := none
    lorePost := buildFallbackLorePost, proposal := none, committed := none
    warnings := [], narrationText := "" }

def fallbackTrace : TurnTrace :=
  { intent := none, loreRetrieval := none, lorePre := none
    lorePost := buildFallbackLorePost, proposal := none, arbiter := none
    committed := none, refusal := none, warnings := [], narrationText := ""
    pipelineEvents := [] }

/-- The concrete refusal-path run used by the C4 witness. -/
def c4Run : Except OrchestratorError TurnResult × RunStore :=
  processTurnViaRouter refusalOracle "uuid-4" sampleInput emptyRunStore

def c4Res : TurnResult := c4Run.1.toOption.getD fallbackTurnResult

def c4Trace : TurnTrace :=
  (moduleTraceEventsFor c4Run.2 sampleInput.turn).getD 0 fallbackTrace

/-- The concrete happy-path run used by the C6 witness. -/
def c6Run : Except OrchestratorError TurnResult × RunStore :=
  processTurnViaRouter happyOracle "uuid-6" sampleInput emptyRunStore

def c6Res : TurnResult := c6Run.1.toOption.getD fallbackTurnResult

/-! ## Helper lemmas -/

@[simp] theorem shouldSkipStage_intent (cp : Checkpoint) :
    shouldSkipStage .intentExtractor cp = false := by
  cases h : optStringTruthy cp.refusalReason <;> simp [shouldSkipStage, h]

@[simp] theorem shouldSkipStage_retrieve (cp : Checkpoint) :
    shouldSkipStage .loremasterRetrieve cp = false := by
  cases h : optStringTruthy cp.refusalReason <;> simp [shouldSkipStage, h]

@[simp] theorem shouldSkipStage_pre (cp : Checkpoint) :
    shouldSkipStage .loremasterPre cp = false := by
  cases h : optStringTruthy cp.refusalReason <;> simp [shouldSkipStage, h]

@[simp] theorem shouldSkipStage_world (cp : Checkpoint) :
    shouldSkipStage .worldStateUpdate cp = false := by
  cases h : optStringTruthy cp.refusalReason <;> simp [shouldSkipStage, h]

@[simp] theorem shouldSkipStage_simulator (cp : Checkpoint) :
    shouldSkipStage .defaultSimulator cp = optStringTruthy cp.refusalReason := by
  cases h : optStringTruthy cp.refusalReason <;> simp [shouldSkipStage, h]

@[simp] theorem shouldSkipStage_post (cp : Checkpoint) :
    shouldSkipStage .loremasterPost cp = optStringTruthy cp.refusalReason := by
  cases h : optStringTruthy cp.refusalReason <;> simp [shouldSkipStage, h]

@[simp] theorem shouldSkipStage_arbiter (cp : Checkpoint) :
    shouldSkipStage .arbiter cp = optStringTruthy cp.refusalReason := by
  cases h : optStringTruthy cp.refusalReason <;> simp [shouldSkipStage, h]

@[simp] theorem shouldSkipStage_proser (cp : Checkpoint) :
    shouldSkipStage .proser cp = optStringTruthy cp.refusalReason := by
  cases h : optStringTruthy cp.refusalReason <;> simp [shouldSkipStage, h]

@[simp] theorem countPlayerInput_appendStepEvent (s : RunStore) (input : TurnInput)
    (st en : String) (status : PipelineStepStatus) (t : Int) :
    countPlayerInputEvents ((appendStepEvent s input st en status).2) t
      = countPlayerInputEvents s t := rfl

@[simp] theorem countPlayerInput_updateProgress (s : RunStore) (args : UpdateProgressArgs)
    (t : Int) :
    countPlayerInputEvents (updateTurnExecutionProgress s args) t
      = countPlayerInputEvents s t := rfl

theorem countPlayerInput_createExecution (s : RunStore) (args : CreateExecutionArgs)
    (t : Int) :
    countPlayerInputEvents (createTurnExecution s args).2 t = countPlayerInputEvents s t := by
  unfold createTurnExecution
  split <;> rfl

theorem countPlayerInput_persist (s : RunStore) (input : TurnInput) (cp : Checkpoint)
    (t : Int) :
    countPlayerInputEvents (persistTurnFinalState s input cp) t
      = countPlayerInputEvents s t := by
  simp [persistTurnFinalState, countPlayerInputEvents, appendEventRow, List.filter_append]

theorem countPlayerInput_runStage (o : ModuleOracle) (input : TurnInput) (stage : StepStage)
    (cp : Checkpoint) (s : RunStore) (t : Int) :
    countPlayerInputEvents (runStage o input stage cp s).2 t = countPlayerInputEvents s t := by
  unfold runStage
  dsimp only
  repeat' split
  all_goals first
    | rfl
    | (rw [countPlayerInput_persist]; rfl)

theorem countPlayerInput_runStages (o : ModuleOracle) (input : TurnInput)
    (stages : List StepStage) (cp : Checkpoint) (s : RunStore) (t : Int) :
    countPlayerInputEvents (runStages o input stages cp s).2 t = countPlayerInputEvents s t := by
  induction stages generalizing cp s with
  | nil => rfl
  | cons stage rest ih =>
    unfold runStages
    rcases hrs : runStage o input stage cp s with ⟨res, s1⟩
    have hcount : countPlayerInputEvents s1 t = countPlayerInputEvents s t := by
      have h := countPlayerInput_runStage o input stage cp s t
      rw [hrs] at h
      exact h
    cases res with
    | error e => simpa using hcount
    | ok cp1 => rw [ih]; exact hcount

theorem countPlayerInput_createExecution_eq (s : RunStore) (args : CreateExecutionArgs)
    (res : Except OrchestratorError TurnExecutionRow) (s' : RunStore) (t : Int)
    (h : createTurnExecution s args = (res, s')) :
    countPlayerInputEvents s' t = countPlayerInputEvents s t := by
  have h2 := countPlayerInput_createExecution s args t
  rw [h] at h2
  exact h2

theorem countPlayerInput_runStages_eq (o : ModuleOracle) (input : TurnInput)
    (stages : List StepStage) (cp : Checkpoint) (s : RunStore)
    (res : Except OrchestratorError Checkpoint) (s' : RunStore) (t : Int)
    (h : runStages o input stages cp s = (res, s')) :
    countPlayerInputEvents s' t = countPlayerInputEvents s t := by
  have h2 := countPlayerInput_runStages o input stages cp s t
  rw [h] at h2
  exact h2

theorem countPlayerInput_ensure (s : RunStore) (uuid : String) (input : TurnInput) :
    countPlayerInputEvents (ensurePlayerInputRecorded s uuid input) input.turn
      = max 1 (countPlayerInputEvents s input.turn) := by
  unfold ensurePlayerInputRecorded
  by_cases h : countPlayerInputEvents s input.turn > 0
  · rw [if_pos h]
    exact (Nat.max_eq_right h).symm
  · rw [if_neg h]
    have h0 : countPlayerInputEvents s input.turn = 0 := Nat.eq_zero_of_not_pos h
    have h1 : countPlayerInputEvents (appendEventRow s input.turn "player_input"
        (.playerInputPayload uuid input.playerInput)) input.turn
        = countPlayerInputEvents s input.turn + 1 := by
      simp [countPlayerInputEvents, appendEventRow, List.filter_append]
    rw [h1, h0]
    decide

theorem countPlayerInput_processTurn (o : ModuleOracle) (uuid : String) (input : TurnInput)
    (s : RunStore) :
    countPlayerInputEvents (processTurnViaRouter o uuid input s).2 input.turn
      = max 1 (countPlayerInputEvents s input.turn) := by
  unfold processTurnViaRouter
  dsimp only
  split
  next e s3 heq =>
    have h2 := countPlayerInput_createExecution_eq _ _ _ _ input.turn heq
    simpa using h2.trans (by simpa using countPlayerInput_ensure s uuid input)
  next r s3 heq =>
    have h2 := countPlayerInput_createExecution_eq _ _ _ _ input.turn heq
    have h3 : countPlayerInputEvents s3 input.turn
        = max 1 (countPlayerInputEvents s input.turn) :=
      h2.trans (by simpa using countPlayerInput_ensure s uuid input)
    rcases hrs : runStages o input STAGE_ORDER emptyCheckpoint s3 with ⟨res, s4⟩
    have h4 := countPlayerInput_runStages_eq _ _ _ _ _ _ _ input.turn hrs
    cases res with
    | error e => simpa using h4.trans h3
    | ok cp => simpa using h4.trans h3

theorem countPlayerInput_stepStart (uuid : String) (input : TurnInput) (s : RunStore) :
    countPlayerInputEvents (startTurnStepExecution uuid input s).2 input.turn
      ≤ max 1 (countPlayerInputEvents s input.turn) := by
  unfold startTurnStepExecution
  cases hg : getTurnExecutionState s input.runId input.turn with
  | some e =>
    by_cases hc : e.completed <;> simp [hc]
  | none =>
    dsimp only
    rcases hce : createTurnExecution
        ((appendStepEvent (ensurePlayerInputRecorded s uuid input) input
          "frontend_input" "frontend" .ok).2)
        { runId := input.runId, turn := input.turn, mode := "step"
          playerInput := input.playerInput, playerId := input.playerId
          requestId := uuid, gameProjectId := input.gameProjectId
          checkpoint := emptyCheckpoint } with ⟨res, s'⟩
    have h2 := countPlayerInput_createExecution_eq _ _ _ _ input.turn hce
    have h3 : countPlayerInputEvents s' input.turn
        = max 1 (countPlayerInputEvents s input.turn) :=
      h2.trans (by simpa using countPlayerInput_ensure s uuid input)
    simp [h3]

@[simp] theorem pipelineRowsFor_appendEventRow (s : RunStore) (t' : Int) (ty : String)
    (p : EventPayload) (runId : String) (turn : Int) :
    pipelineRowsFor (appendEventRow s t' ty p) runId turn = pipelineRowsFor s runId turn := rfl

@[simp] theorem pipelineRowsFor_updateProgress (s : RunStore) (args : UpdateProgressArgs)
    (runId : String) (turn : Int) :
    pipelineRowsFor (updateTurnExecutionProgress s args) runId turn
      = pipelineRowsFor s runId turn := rfl

@[simp] theorem pipelineRowsFor_persist (s : RunStore) (input : TurnInput) (cp : Checkpoint)
    (runId : String) (turn : Int) :
    pipelineRowsFor (persistTurnFinalState s input cp) runId turn
      = pipelineRowsFor s runId turn := rfl

@[simp] theorem pipelineRowsFor_ensure (s : RunStore) (uuid : String) (input : TurnInput)
    (runId : String) (turn : Int) :
    pipelineRowsFor (ensurePlayerInputRecorded s uuid input) runId turn
      = pipelineRowsFor s runId turn := by
  unfold ensurePlayerInputRecorded
  split <;> rfl

@[simp] theorem pipelineRowsFor_appendPipelineEvent (s : RunStore) (r : String) (t : Int)
    (e : PipelineStepEvent) (runId : String) (turn : Int) :
    pipelineRowsFor (appendPipelineEvent s r t e) runId turn
      = pipelineRowsFor s runId turn
        ++ (if r = runId ∧ t = turn then [⟨r, t, e⟩] else []) := by
  by_cases h : r = runId ∧ t = turn <;>
    simp [pipelineRowsFor, appendPipelineEvent, List.filter_append, h]

@[simp] theorem moduleTraceEventsFor_appendPipelineEvent (s : RunStore) (r : String)
    (t : Int) (e : PipelineStepEvent) (turn : Int) :
    moduleTraceEventsFor (appendPipelineEvent s r t e) turn
      = moduleTraceEventsFor s turn := rfl

@[simp] theorem moduleTraceEventsFor_updateProgress (s : RunStore)
    (args : UpdateProgressArgs) (turn : Int) :
    moduleTraceEventsFor (updateTurnExecutionProgress s args) turn
      = moduleTraceEventsFor s turn := rfl

@[simp] theorem moduleTraceEventsFor_appendEventRow (s : RunStore) (t' : Int) (ty : String)
    (p : EventPayload) (turn : Int) :
    moduleTraceEventsFor (appendEventRow s t' ty p) turn
      = moduleTraceEventsFor s turn
        ++ (if t' = turn then
              (match p with | .moduleTracePayload trace => [trace] | _ => []) else []) := by
  by_cases h : t' = turn <;> cases p <;>
    simp [moduleTraceEventsFor, appendEventRow, List.filterMap_append, h]

@[simp] theorem moduleTraceEventsFor_ensure (s : RunStore) (uuid : String)
    (input : TurnInput) (turn : Int) :
    moduleTraceEventsFor (ensurePlayerInputRecorded s uuid input) turn
      = moduleTraceEventsFor s turn := by
  unfold ensurePlayerInputRecorded
  split
  · rfl
  · simp

@[simp] theorem committedDiffEventsFor_appendPipelineEvent (s : RunStore) (r : String)
    (t : Int) (e : PipelineStepEvent) (turn : Int) :
    committedDiffEventsFor (appendPipelineEvent s r t e) turn
      = committedDiffEventsFor s turn := rfl

@[simp] theorem committedDiffEventsFor_updateProgress (s : RunStore)
    (args : UpdateProgressArgs) (turn : Int) :
    committedDiffEventsFor (updateTurnExecutionProgress s args) turn
      = committedDiffEventsFor s turn := rfl

@[simp] theorem committedDiffEventsFor_appendEventRow (s : RunStore) (t' : Int) (ty : String)
    (p : EventPayload) (turn : Int) :
    committedDiffEventsFor (appendEventRow s t' ty p) turn
      = committedDiffEventsFor s turn
        ++ (if t' = turn then
              (match p with | .committedDiffPayload diff => [diff] | _ => []) else []) := by
  by_cases h : t' = turn <;> cases p <;>
    simp [committedDiffEventsFor, appendEventRow, List.filterMap_append, h]

@[simp] theorem committedDiffEventsFor_ensure (s : RunStore) (uuid : String)
    (input : TurnInput) (turn : Int) :
    committedDiffEventsFor (ensurePlayerInputRecorded s uuid input) turn
      = committedDiffEventsFor s turn := by
  unfold ensurePlayerInputRecorded
  split
  · rfl
  · simp

@[simp] theorem snapshotRowsFor_appendPipelineEvent (s : RunStore) (r : String) (t : Int)
    (e : PipelineStepEvent) (turn : Int) :
    snapshotRowsFor (appendPipelineEvent s r t e) turn = snapshotRowsFor s turn := rfl

@[simp] theorem snapshotRowsFor_appendEventRow (s : RunStore) (t' : Int) (ty : String)
    (p : EventPayload) (turn : Int) :
    snapshotRowsFor (appendEventRow s t' ty p) turn = snapshotRowsFor s turn := rfl

@[simp] theorem snapshotRowsFor_updateProgress (s : RunStore) (args : UpdateProgressArgs)
    (turn : Int) :
    snapshotRowsFor (updateTurnExecutionProgress s args) turn = snapshotRowsFor s turn := rfl

@[simp] theorem snapshotRowsFor_ensure (s : RunStore) (uuid : String) (input : TurnInput)
    (turn : Int) :
    snapshotRowsFor (ensurePlayerInputRecorded s uuid input) turn
      = snapshotRowsFor s turn := by
  unfold ensurePlayerInputRecorded
  split <;> rfl

@[simp] theorem snapshotRowsFor_persist (s : RunStore) (input : TurnInput) (cp : Checkpoint)
    (turn : Int) :
    snapshotRowsFor (persistTurnFinalState s input cp) turn
      = snapshotRowsFor s turn
        ++ (if input.turn = turn then
              [{ turn := input.turn
                 worldState := .lastSummary ((cp.committed.map (·.summary)).getD "")
                 viewState := .lastObservation ((cp.committed.map (·.operations)).getD []) }]
            else []) := by
  by_cases h : input.turn = turn <;>
    simp [snapshotRowsFor, persistTurnFinalState, appendEventRow, List.filter_append, h]

@[simp] theorem getTurnExecutionState_appendPipelineEvent (s : RunStore) (r : String)
    (t : Int) (e : PipelineStepEvent) (runId : String) (turn : Int) :
    getTurnExecutionState (appendPipelineEvent s r t e) runId turn
      = getTurnExecutionState s runId turn := rfl

@[simp] theorem getTurnExecutionState_appendEventRow (s : RunStore) (t' : Int) (ty : String)
    (p : EventPayload) (runId : String) (turn : Int) :
    getTurnExecutionState (appendEventRow s t' ty p) runId turn
      = getTurnExecutionState s runId turn := rfl

@[simp] theorem getTurnExecutionState_ensure (s : RunStore) (uuid : String)
    (input : TurnInput) (runId : String) (turn : Int) :
    getTurnExecutionState (ensurePlayerInputRecorded s uuid input) runId turn
      = getTurnExecutionState s runId turn := by
  unfold ensurePlayerInputRecorded
  split <;> rfl

@[simp] theorem getTurnExecutionState_persist (s : RunStore) (input : TurnInput)
    (cp : Checkpoint) (runId : String) (turn : Int) :
    getTurnExecutionState (persistTurnFinalState s input cp) runId turn
      = getTurnExecutionState s runId turn := rfl

@[simp] theorem pipelineRowsFor_setExecutions (s : RunStore) (l : List TurnExecutionRow)
    (runId : String) (turn : Int) :
    pipelineRowsFor { s with executions := l } runId turn
      = pipelineRowsFor s runId turn := rfl

@[simp] theorem moduleTraceEventsFor_setExecutions (s : RunStore)
    (l : List TurnExecutionRow) (turn : Int) :
    moduleTraceEventsFor { s with executions := l } turn = moduleTraceEventsFor s turn := rfl

@[simp] theorem committedDiffEventsFor_setExecutions (s : RunStore)
    (l : List TurnExecutionRow) (turn : Int) :
    committedDiffEventsFor { s with executions := l } turn
      = committedDiffEventsFor s turn := rfl

@[simp] theorem snapshotRowsFor_setExecutions (s : RunStore) (l : List TurnExecutionRow)
    (turn : Int) :
    snapshotRowsFor { s with executions := l } turn = snapshotRowsFor s turn := rfl

@[simp] theorem countPlayerInput_setExecutions (s : RunStore) (l : List TurnExecutionRow)
    (turn : Int) :
    countPlayerInputEvents { s with executions := l } turn
      = countPlayerInputEvents s turn := rfl

@[simp] theorem pipelineRowsFor_setSnapshots (s : RunStore) (l : List SnapshotRow)
    (runId : String) (turn : Int) :
    pipelineRowsFor { s with snapshots := l } runId turn = pipelineRowsFor s runId turn := rfl

@[simp] theorem moduleTraceEventsFor_setSnapshots (s : RunStore) (l : List SnapshotRow)
    (turn : Int) :
    moduleTraceEventsFor { s with snapshots := l } turn = moduleTraceEventsFor s turn := rfl

@[simp] theorem committedDiffEventsFor_setSnapshots (s : RunStore) (l : List SnapshotRow)
    (turn : Int) :
    committedDiffEventsFor { s with snapshots := l } turn
      = committedDiffEventsFor s turn := rfl

@[simp] theorem getTurnExecutionState_setSnapshots (s : RunStore) (l : List SnapshotRow)
    (runId : String) (turn : Int) :
    getTurnExecutionState { s with snapshots := l } runId turn
      = getTurnExecutionState s runId turn := rfl

@[simp] theorem moduleTraceEventsFor_persist (s : RunStore) (input : TurnInput)
    (cp : Checkpoint) (turn : Int) :
    moduleTraceEventsFor (persistTurnFinalState s input cp) turn
      = moduleTraceEventsFor s turn
        ++ (if input.turn = turn then
              [buildTurnTracePayload cp (listPipelineEvents s input.runId input.turn)]
            else []) := by
  by_cases h : input.turn = turn <;> simp [persistTurnFinalState, h]

@[simp] theorem committedDiffEventsFor_persist (s : RunStore) (input : TurnInput)
    (cp : Checkpoint) (turn : Int) :
    committedDiffEventsFor (persistTurnFinalState s input cp) turn
      = committedDiffEventsFor s turn
        ++ (if input.turn = turn then [cp.committed] else []) := by
  by_cases h : input.turn = turn <;> simp [persistTurnFinalState, h]

theorem getTurnExecutionState_appendRow (s : RunStore) (row : TurnExecutionRow)
    (runId : String) (turn : Int) (h : getTurnExecutionState s runId turn = none) :
    getTurnExecutionState { s with executions := s.executions ++ [row] } runId turn
      = if row.runId = runId ∧ row.turn = turn then some row else none := by
  unfold getTurnExecutionState at h ⊢
  rw [List.find?_append, h]
  by_cases hc : row.runId = runId ∧ row.turn = turn <;> simp [List.find?, hc]

/-! ## Claim theorems -/

/-- C5 (code bug): `deriveRefusalReasonFromIntent` never produces the
ambiguity refusal.  On an intent whose only candidate carries
`needs_clarification` (and no candidate carries `no_target_in_scope`) the
function returns no refusal at all, because its `find` predicate only
matches `no_target_in_scope`, leaving the documented
"Refused: action is ambiguous..." branch unreachable. -/
theorem c5_needs_clarification_without_target_yields_no_refusal :
    deriveRefusalReasonFromIntent ambiguousOnlyIntent = none
    ∧ deriveRefusalReasonFromIntent ambiguousOnlyIntent
        ≠ some "Refused: action is ambiguous and cannot be safely resolved." := by
  decide

/-- C8 (code bug): re-running `initializeRunStore` on an already-initialized
store appends a second turn-0 seed snapshot row, because the
`INSERT OR IGNORE` on `snapshots` has no uniqueness constraint to trigger
the ignore; the store is therefore not left unchanged by a second run. -/
theorem c8_second_initialize_duplicates_seed_snapshot :
    (snapshotRowsFor (initializeRunStore "sandcrawler" "run-1" []
        (initializeRunStore "sandcrawler" "run-1" [] emptyRunStore)) 0).length = 2
    ∧ (snapshotRowsFor (initializeRunStore "sandcrawler" "run-1" [] emptyRunStore) 0).length = 1
    ∧ initializeRunStore "sandcrawler" "run-1" []
        (initializeRunStore "sandcrawler" "run-1" [] emptyRunStore)
      ≠ initializeRunStore "sandcrawler" "run-1" [] emptyRunStore := by
  decide

/-- C3 (confirmed): for an integer turn `≥ 1`, the `POST /turn` handler
delegates to turn processing iff `turn = 1 + max(snapshot.turn)`, and any
other such turn is rejected with `TURN_SEQUENCE_CONFLICT` carrying
`{expectedTurn, receivedTurn}`. -/
theorem c3_turn_sequencing (s : RunStore) (turn : Int) (h1 : 1 ≤ turn) :
    (turnRequestDecision s turn = .processed ↔ turn = (maxSnapshotTurn s).getD 0 + 1)
    ∧ (turn ≠ (maxSnapshotTurn s).getD 0 + 1 →
        turnRequestDecision s turn
          = .sequenceConflict ((maxSnapshotTurn s).getD 0 + 1) turn) := by
  have hnot : ¬ turn < 1 := by omega
  unfold turnRequestDecision
  rw [if_neg hnot]
  by_cases h : turn = (maxSnapshotTurn s).getD 0 + 1 <;> simp [h]

theorem c3_turn_sequencing_witness :
    ((1 : Int) ≤ 2)
    ∧ ((turnRequestDecision c3Store 2 = .processed
          ↔ (2 : Int) = (maxSnapshotTurn c3Store).getD 0 + 1)
      ∧ ((2 : Int) ≠ (maxSnapshotTurn c3Store).getD 0 + 1 →
          turnRequestDecision c3Store 2
            = .sequenceConflict ((maxSnapshotTurn c3Store).getD 0 + 1) 2)) :=
  ⟨by decide, c3_turn_sequencing c3Store 2 (by decide)⟩

/-- C7 counterexample: with only the seed snapshot present (the state every
normally-running step execution leaves), a step-start for turn `T+1 = 2`
while turn `1` is running hits the turn-sequencing check first and returns
`TURN_SEQUENCE_CONFLICT`, not `STEP_EXECUTION_CONFLICT {activeTurn: 1}` as
the claim states. -/
theorem c7_counterexample :
    getTurnExecutionState c7Store "run-1" 1 = some runningExecutionRow
    ∧ runningExecutionRow.completed = false
    ∧ stepStartDecision c7Store "run-1" 2 = .sequenceConflict 1 2
    ∧ stepStartDecision c7Store "run-1" 2 ≠ .stepConflict 1 := by
  decide

/-- C7 (amended): while the oldest non-completed execution is for turn `T`,
a step-start for turn `T+1` never starts a new execution; it returns
`STEP_EXECUTION_CONFLICT {activeTurn: T}` only when `T+1` also passes the
sequencing check (`T+1 = 1 + max(snapshot.turn)`), and otherwise returns
`TURN_SEQUENCE_CONFLICT {expectedTurn, receivedTurn}`. -/
theorem c7_step_start_conflict_behavior (s : RunStore) (runId : String) (T : Int)
    (hT : 1 ≤ T) (hactive : minIncompleteExecutionTurn s runId = some T) :
    stepStartDecision s runId (T + 1) ≠ .started
    ∧ stepStartDecision s runId (T + 1)
        = (if T + 1 = (maxSnapshotTurn s).getD 0 + 1
           then .stepConflict T
           else .sequenceConflict ((maxSnapshotTurn s).getD 0 + 1) (T + 1)) := by
  have hnot : ¬ (T + 1 < 1) := by omega
  have hne : T ≠ T + 1 := by omega
  unfold stepStartDecision
  rw [if_neg hnot]
  by_cases h : T + 1 = (maxSnapshotTurn s).getD 0 + 1
  · rw [if_neg (not_not_intro h), hactive, if_pos h]
    simp [hne]
  · rw [if_pos h, if_neg h]
    simp

theorem c7_step_start_conflict_behavior_witness :
    ((1 : Int) ≤ 1 ∧ minIncompleteExecutionTurn c7WitnessStore "run-1" = some 1)
    ∧ (stepStartDecision c7WitnessStore "run-1" (1 + 1) ≠ .started
      ∧ stepStartDecision c7WitnessStore "run-1" (1 + 1)
          = (if (1 : Int) + 1 = (maxSnapshotTurn c7WitnessStore).getD 0 + 1
             then .stepConflict 1
             else .sequenceConflict ((maxSnapshotTurn c7WitnessStore).getD 0 + 1) (1 + 1))) :=
  ⟨⟨by decide, by decide⟩,
   c7_step_start_conflict_behavior c7WitnessStore "run-1" 1 (by decide) (by decide)⟩

/-- C9 (confirmed): when an execution row exists for `(runId, turn)`,
`startTurnStepExecution` leaves the store untouched; it returns the
existing row when that row is non-completed and fails when it is
completed.  In particular no `player_input` event, no `frontend_input`
pipeline event and no new row is written. -/
theorem c9_step_start_returns_existing_execution (uuid : String) (input : TurnInput)
    (s : RunStore) (e : TurnExecutionRow)
    (h : getTurnExecutionState s input.runId input.turn = some e) :
    (startTurnStepExecution uuid input s).2 = s
    ∧ startTurnStepExecution uuid input s
        = (if e.completed then (.error .stepExecutionCompleted, s) else (.ok e, s)) := by
  unfold startTurnStepExecution
  rw [h]
  by_cases hc : e.completed <;> simp [hc]

theorem c9_step_start_returns_existing_execution_witness :
    getTurnExecutionState c9Store sampleInput.runId sampleInput.turn = some runningExecutionRow
    ∧ ((startTurnStepExecution "uuid-2" sampleInput c9Store).2 = c9Store
      ∧ startTurnStepExecution "uuid-2" sampleInput c9Store
          = (if runningExecutionRow.completed
             then (.error .stepExecutionCompleted, c9Store)
             else (.ok runningExecutionRow, c9Store))) :=
  ⟨by decide,
   c9_step_start_returns_existing_execution "uuid-2" sampleInput c9Store
     runningExecutionRow (by decide)⟩

/-- C2 counterexample: a checkpoint already carrying the intent-derived
refusal reason loses it when the pre-check yields no refusal: the
`loremaster_pre` stage stores `refusalReason ?? undefined`, clearing the
earlier reason instead of keeping it. -/
theorem c2_counterexample :
    c2Checkpoint.refusalReason = some "Refused: no valid attack target is currently in scope."
    ∧ Except.map Checkpoint.refusalReason
        (runStage c2Oracle sampleInput .loremasterPre c2Checkpoint emptyRunStore).1
      = Except.ok none
    ∧ Except.map Checkpoint.refusalReason
        (runStage c2Oracle sampleInput .loremasterPre c2Checkpoint emptyRunStore).1
      ≠ Except.ok (some "Refused: no valid attack target is currently in scope.") := by
  decide

/-- C2 (amended): the `loremaster_pre` stage replaces `refusalReason` with
exactly the value derived from the pre-check output — the first assessment
bearing `no_target_in_scope` with a nonempty (trimmed) rationale
contributes `"Refused: <rationale>"` — and when the pre-check derives no
refusal the earlier reason is cleared, not kept. -/
theorem c2_pre_stage_sets_refusal_from_derivation (o : ModuleOracle) (input : TurnInput)
    (cp : Checkpoint) (s : RunStore) (i : ActionCandidates) (l : LoreRetrieval)
    (r : ModuleInvocationResult LoremasterOutput)
    (hi : cp.intent = some i) (hl : cp.loreRetrieval = some l) (ho : o.pre = .ok r) :
    Except.map Checkpoint.refusalReason (runStage o input .loremasterPre cp s).1
      = Except.ok (deriveRefusalReasonFromLoremaster i r.output)
    ∧ (∀ a, r.output.assessments.find?
          (fun item => decide (ConsequenceTag.noTargetInScope ∈ item.consequenceTags)) = some a →
        strTrim a.rationale ≠ "" →
        deriveRefusalReasonFromLoremaster i r.output
          = some ("Refused: " ++ strTrim a.rationale)) := by
  constructor
  · unfold runStage
    simp [hi, hl, ho, Except.map]
  · intro a ha hr
    unfold deriveRefusalReasonFromLoremaster
    rw [ha]
    simp [hr]

theorem c2_pre_stage_sets_refusal_from_derivation_witness :
    (c2Checkpoint.intent = some sampleIntentRefusing
      ∧ c2Checkpoint.loreRetrieval = some sampleLore
      ∧ c2Oracle.pre = Except.ok ⟨samplePreAllowed, []⟩)
    ∧ (Except.map Checkpoint.refusalReason
          (runStage c2Oracle sampleInput .loremasterPre c2Checkpoint emptyRunStore).1
        = Except.ok (deriveRefusalReasonFromLoremaster sampleIntentRefusing
            (ModuleInvocationResult.mk samplePreAllowed []).output)
      ∧ (∀ a, (ModuleInvocationResult.mk samplePreAllowed []).output.assessments.find?
            (fun item => decide (ConsequenceTag.noTargetInScope ∈ item.consequenceTags)) = some a →
          strTrim a.rationale ≠ "" →
          deriveRefusalReasonFromLoremaster sampleIntentRefusing
              (ModuleInvocationResult.mk samplePreAllowed []).output
            = some ("Refused: " ++ strTrim a.rationale))) :=
  ⟨⟨by decide, by decide, by decide⟩,
   c2_pre_stage_sets_refusal_from_derivation c2Oracle sampleInput c2Checkpoint emptyRunStore
     sampleIntentRefusing sampleLore ⟨samplePreAllowed, []⟩
     (by decide) (by decide) (by decide)⟩

/-- C10 (confirmed): `player_input` is recorded at most once per turn.
Both normal-mode processing and step-mode start first check whether a
`player_input` event exists for the turn (via `ensurePlayerInputRecorded`)
and insert one only if none is present, and no pipeline stage ever inserts
one; so if at most one such event exists before the call, at most one
exists after it, for any module behaviour. -/
theorem c10_player_input_at_most_once (o : ModuleOracle) (uuid : String)
    (input : TurnInput) (s : RunStore)
    (h : countPlayerInputEvents s input.turn ≤ 1) :
    countPlayerInputEvents (processTurnViaRouter o uuid input s).2 input.turn ≤ 1
    ∧ countPlayerInputEvents (startTurnStepExecution uuid input s).2 input.turn ≤ 1 := by
  have hp := countPlayerInput_processTurn o uuid input s
  have hs := countPlayerInput_stepStart uuid input s
  omega

theorem c10_player_input_at_most_once_witness :
    countPlayerInputEvents emptyRunStore sampleInput.turn ≤ 1
    ∧ (countPlayerInputEvents
          (processTurnViaRouter happyOracle "uuid-10" sampleInput emptyRunStore).2
          sampleInput.turn ≤ 1
      ∧ countPlayerInputEvents
          (startTurnStepExecution "uuid-10" sampleInput emptyRunStore).2
          sampleInput.turn ≤ 1) :=
  ⟨by decide,
   c10_player_input_at_most_once happyOracle "uuid-10" sampleInput emptyRunStore (by decide)⟩

/-- C1 counterexample: with `default_simulator` timing out on a fresh turn,
turn processing fails, yet no pipeline event with `status = error` exists
for the turn — the failing stage's error event is never appended (the claim
asserts it is); the four events present are the frontend input and the
three successful stages. -/
theorem c1_counterexample :
    (processTurnViaRouter simulatorTimeoutOracle "uuid-1" sampleInput emptyRunStore).1
      = .error (.moduleFailure .defaultSimulator .timeoutError)
    ∧ (listPipelineEvents
        (processTurnViaRouter simulatorTimeoutOracle "uuid-1" sampleInput emptyRunStore).2
        sampleInput.runId sampleInput.turn).filter
          (fun e => decide (e.status = .error)) = []
    ∧ (listPipelineEvents
        (processTurnViaRouter simulatorTimeoutOracle "uuid-1" sampleInput emptyRunStore).2
        sampleInput.runId sampleInput.turn).length = 4 := by
  decide

/-- C1 (amended): when any module invocation of a turn on a fresh turn
index fails, the error propagates without appending any
`status = error` pipeline event (every stored event is `ok` or `skipped`),
no later stage runs (no `module_trace`, no `committed_diff`, no snapshot is
written for the turn), and the execution row remains non-completed. -/
theorem c1_module_failure_aborts_without_error_event (o : ModuleOracle) (uuid : String)
    (input : TurnInput) (s : RunStore) (err : OrchestratorError) (s' : RunStore)
    (hp : pipelineRowsFor s input.runId input.turn = [])
    (ht : moduleTraceEventsFor s input.turn = [])
    (hc : committedDiffEventsFor s input.turn = [])
    (hs : snapshotRowsFor s input.turn = [])
    (hx : getTurnExecutionState s input.runId input.turn = none)
    (hr : processTurnViaRouter o uuid input s = (.error err, s')) :
    (∀ e ∈ listPipelineEvents s' input.runId input.turn, e.status ≠ .error)
    ∧ moduleTraceEventsFor s' input.turn = []
    ∧ committedDiffEventsFor s' input.turn = []
    ∧ snapshotRowsFor s' input.turn = []
    ∧ (getTurnExecutionState s' input.runId input.turn).map (·.completed) = some false := by
  obtain ⟨oi, ore, opre, osim, opost, oarb, opro⟩ := o
  cases oi with
  | error e =>
    simp [processTurnViaRouter, createTurnExecution, appendStepEvent, hx,
      STAGE_ORDER, runStages, runStage, listPipelineEvents, sortByStep, insertByStep,
      emptyCheckpoint, hp] at hr
    obtain ⟨-, hstore⟩ := hr
    subst hstore
    refine ⟨?_, ?_, ?_, ?_, ?_⟩
    · simp [listPipelineEvents, sortByStep, insertByStep, hp]
    · simp [ht]
    · simp [hc]
    · simp [hs]
    · try simp only [getTurnExecutionState_appendPipelineEvent]
      rw [getTurnExecutionState_appendRow]
      · simp
      · simp [hx]
  | ok r1 =>
    cases ore with
    | error e =>
      simp [processTurnViaRouter, createTurnExecution, appendStepEvent, hx,
        STAGE_ORDER, runStages, runStage, listPipelineEvents, sortByStep, insertByStep,
        emptyCheckpoint, hp] at hr
      obtain ⟨-, hstore⟩ := hr
      subst hstore
      refine ⟨?_, ?_, ?_, ?_, ?_⟩
      · simp [listPipelineEvents, sortByStep, insertByStep, hp]
      · simp [ht]
      · simp [hc]
      · simp [hs]
      · try simp only [getTurnExecutionState_appendPipelineEvent]
        rw [getTurnExecutionState_appendRow]
        · simp
        · simp [hx]
    | ok r2 =>
      cases opre with
      | error e =>
        simp [processTurnViaRouter, createTurnExecution, appendStepEvent, hx,
          STAGE_ORDER, runStages, runStage, listPipelineEvents, sortByStep, insertByStep,
          emptyCheckpoint, hp] at hr
        obtain ⟨-, hstore⟩ := hr
        subst hstore
        refine ⟨?_, ?_, ?_, ?_, ?_⟩
        · simp [listPipelineEvents, sortByStep, insertByStep, hp]
        · simp [ht]
        · simp [hc]
        · simp [hs]
        · try simp only [getTurnExecutionState_appendPipelineEvent]
          rw [getTurnExecutionState_appendRow]
          · simp
          · simp [hx]
      | ok r3 =>
        cases hb : optStringTruthy (deriveRefusalReasonFromLoremaster r1.output r3.output) with
        | true =>
          simp [processTurnViaRouter, createTurnExecution, appendStepEvent, hx,
            STAGE_ORDER, runStages, runStage, listPipelineEvents, sortByStep, insertByStep,
            emptyCheckpoint, hp, hb] at hr
        | false =>
          cases osim with
          | error e =>
            simp [processTurnViaRouter, createTurnExecution, appendStepEvent, hx,
              STAGE_ORDER, runStages, runStage, listPipelineEvents, sortByStep, insertByStep,
              emptyCheckpoint, hp, hb] at hr
            obtain ⟨-, hstore⟩ := hr
            subst hstore
            refine ⟨?_, ?_, ?_, ?_, ?_⟩
            · simp [listPipelineEvents, sortByStep, insertByStep, hp]
            · simp [ht]
            · simp [hc]
            · simp [hs]
            · try simp only [getTurnExecutionState_appendPipelineEvent]
              rw [getTurnExecutionState_appendRow]
              · simp
              · simp [hx]
          | ok r4 =>
            cases opost with
            | error e =>
              simp [processTurnViaRouter, createTurnExecution, appendStepEvent, hx,
                STAGE_ORDER, runStages, runStage, listPipelineEvents, sortByStep, insertByStep,
                emptyCheckpoint, hp, hb] at hr
              obtain ⟨-, hstore⟩ := hr
              subst hstore
              refine ⟨?_, ?_, ?_, ?_, ?_⟩
              · simp [listPipelineEvents, sortByStep, insertByStep, hp]
              · simp [ht]
              · simp [hc]
              · simp [hs]
              · try simp only [getTurnExecutionState_appendPipelineEvent]
                rw [getTurnExecutionState_appendRow]
                · simp
                · simp [hx]
            | ok r5 =>
              cases oarb with
              | error e =>
                simp [processTurnViaRouter, createTurnExecution, appendStepEvent, hx,
                  STAGE_ORDER, runStages, runStage, listPipelineEvents, sortByStep, insertByStep,
                  emptyCheckpoint, hp, hb] at hr
                obtain ⟨-, hstore⟩ := hr
                subst hstore
                refine ⟨?_, ?_, ?_, ?_, ?_⟩
                · simp [listPipelineEvents, sortByStep, insertByStep, hp]
                · simp [ht]
                · simp [hc]
                · simp [hs]
                · try simp only [getTurnExecutionState_appendPipelineEvent]
                  rw [getTurnExecutionState_appendRow]
                  · simp
                  · simp [hx]
              | ok r6 =>
                cases opro with
                | error e =>
                  simp [processTurnViaRouter, createTurnExecution, appendStepEvent, hx,
                    STAGE_ORDER, runStages, runStage, listPipelineEvents, sortByStep, insertByStep,
                    emptyCheckpoint, hp, hb] at hr
                  obtain ⟨-, hstore⟩ := hr
                  subst hstore
                  refine ⟨?_, ?_, ?_, ?_, ?_⟩
                  · simp [listPipelineEvents, sortByStep, insertByStep, hp]
                  · simp [ht]
                  · simp [hc]
                  · simp [hs]
                  · try simp only [getTurnExecutionState_appendPipelineEvent]
                    rw [getTurnExecutionState_appendRow]
                    · simp
                    · simp [hx]
                | ok r7 =>
                  simp [processTurnViaRouter, createTurnExecution, appendStepEvent, hx,
                    STAGE_ORDER, runStages, runStage, listPipelineEvents, sortByStep, insertByStep,
                    emptyCheckpoint, hp, hb] at hr

theorem c1_module_failure_aborts_without_error_event_witness :
    (pipelineRowsFor emptyRunStore sampleInput.runId sampleInput.turn = []
      ∧ moduleTraceEventsFor emptyRunStore sampleInput.turn = []
      ∧ committedDiffEventsFor emptyRunStore sampleInput.turn = []
      ∧ snapshotRowsFor emptyRunStore sampleInput.turn = []
      ∧ getTurnExecutionState emptyRunStore sampleInput.runId sampleInput.turn = none
      ∧ processTurnViaRouter simulatorTimeoutOracle "uuid-1w" sampleInput emptyRunStore
          = (.error (.moduleFailure .defaultSimulator .timeoutError),
             (processTurnViaRouter simulatorTimeoutOracle "uuid-1w" sampleInput emptyRunStore).2))
    ∧ ((∀ e ∈ listPipelineEvents
          (processTurnViaRouter simulatorTimeoutOracle "uuid-1w" sampleInput emptyRunStore).2
          sampleInput.runId sampleInput.turn, e.status ≠ .error)
      ∧ moduleTraceEventsFor
          (processTurnViaRouter simulatorTimeoutOracle "uuid-1w" sampleInput emptyRunStore).2
          sampleInput.turn = []
      ∧ committedDiffEventsFor
          (processTurnViaRouter simulatorTimeoutOracle "uuid-1w" sampleInput emptyRunStore).2
          sampleInput.turn = []
      ∧ snapshotRowsFor
          (processTurnViaRouter simulatorTimeoutOracle "uuid-1w" sampleInput emptyRunStore).2
          sampleInput.turn = []
      ∧ (getTurnExecutionState
          (processTurnViaRouter simulatorTimeoutOracle "uuid-1w" sampleInput emptyRunStore).2
          sampleInput.runId sampleInput.turn).map (·.completed) = some false) :=
  ⟨⟨by decide, by decide, by decide, by decide, by decide, by decide⟩,
   c1_module_failure_aborts_without_error_event simulatorTimeoutOracle "uuid-1w" sampleInput
     emptyRunStore (.moduleFailure .defaultSimulator .timeoutError)
     (processTurnViaRouter simulatorTimeoutOracle "uuid-1w" sampleInput emptyRunStore).2
     (by decide) (by decide) (by decide) (by decide) (by decide) (by decide)⟩

set_option maxHeartbeats 2000000 in
/-- C4 (confirmed): on a fresh turn that completes with `refusalReason`
set when the pipeline reaches `world_state_update` (observable as the
module trace's `refusal` field), the turn records exactly the four
`skipped` events `default_simulator, loremaster_post, arbiter, proser`
(in that order), the committed diff is exactly one `observation` operation
scoped `view:player` whose payload text is the refusal reason, and both the
trace's and the result's `narrationText` equal the refusal reason. -/
theorem c4_refusal_shape (o : ModuleOracle) (uuid : String) (input : TurnInput) (s : RunStore)
    (res : TurnResult) (s' : RunStore) (tr : TurnTrace) (r : String)
    (hp : pipelineRowsFor s input.runId input.turn = [])
    (ht : moduleTraceEventsFor s input.turn = [])
    (hr : processTurnViaRouter o uuid input s = (.ok res, s'))
    (htr : moduleTraceEventsFor s' input.turn = [tr])
    (href : tr.refusal = some r) :
    ((listPipelineEvents s' input.runId input.turn).filter
        (fun e => decide (e.status = .skipped))).map (·.stage)
      = ["default_simulator", "loremaster_post", "arbiter", "proser"]
    ∧ tr.committed = some
        { turn := input.turn
          operations := [{ op := .observation, scope := .viewPlayer
                           payload := .observationPayload input.playerId r input.turn
                           reason := "action refused by deterministic invalid-action policy" }]
          summary := "Action resolved with router-managed module pipeline." }
    ∧ tr.narrationText = r
    ∧ res.narrationText = r := by
  obtain ⟨oi, ore, opre, osim, opost, oarb, opro⟩ := o
  cases hex : getTurnExecutionState s input.runId input.turn with
  | some e =>
    simp [processTurnViaRouter, createTurnExecution, appendStepEvent, hex] at hr
  | none =>
    cases oi with
    | error e =>
      simp [processTurnViaRouter, createTurnExecution, appendStepEvent, hex,
        STAGE_ORDER, runStages, runStage, listPipelineEvents, sortByStep, insertByStep,
        emptyCheckpoint, hp] at hr
    | ok r1 =>
      cases ore with
      | error e =>
        simp [processTurnViaRouter, createTurnExecution, appendStepEvent, hex,
          STAGE_ORDER, runStages, runStage, listPipelineEvents, sortByStep, insertByStep,
          emptyCheckpoint, hp] at hr
      | ok r2 =>
        cases opre with
        | error e =>
          simp [processTurnViaRouter, createTurnExecution, appendStepEvent, hex,
            STAGE_ORDER, runStages, runStage, listPipelineEvents, sortByStep, insertByStep,
            emptyCheckpoint, hp] at hr
        | ok r3 =>
          cases hb : optStringTruthy (deriveRefusalReasonFromLoremaster r1.output r3.output) with
          | false =>
            cases osim with
            | error e =>
              simp [processTurnViaRouter, createTurnExecution, appendStepEvent, hex,
                STAGE_ORDER, runStages, runStage, listPipelineEvents, sortByStep, insertByStep,
                emptyCheckpoint, hp, hb] at hr
            | ok r4 =>
              cases opost with
              | error e =>
                simp [processTurnViaRouter, createTurnExecution, appendStepEvent, hex,
                  STAGE_ORDER, runStages, runStage, listPipelineEvents, sortByStep, insertByStep,
                  emptyCheckpoint, hp, hb] at hr
              | ok r5 =>
                cases oarb with
                | error e =>
                  simp [processTurnViaRouter, createTurnExecution, appendStepEvent, hex,
                    STAGE_ORDER, runStages, runStage, listPipelineEvents, sortByStep, insertByStep,
                    emptyCheckpoint, hp, hb] at hr
                | ok r6 =>
                  cases opro with
                  | error e =>
                    simp [processTurnViaRouter, createTurnExecution, appendStepEvent, hex,
                      STAGE_ORDER, runStages, runStage, listPipelineEvents, sortByStep, insertByStep,
                      emptyCheckpoint, hp, hb] at hr
                  | ok r7 =>
                    simp [processTurnViaRouter, createTurnExecution, appendStepEvent, hex,
                      STAGE_ORDER, runStages, runStage, listPipelineEvents, sortByStep, insertByStep,
                      emptyCheckpoint, hp, hb] at hr
                    obtain ⟨hres, hstore⟩ := hr
                    subst hstore
                    simp [ht, hp, listPipelineEvents, sortByStep, insertByStep,
                      buildTurnTracePayload, hb] at htr
                    subst htr
                    simp at href
          | true =>
            simp [processTurnViaRouter, createTurnExecution, appendStepEvent, hex,
              STAGE_ORDER, runStages, runStage, listPipelineEvents, sortByStep, insertByStep,
              emptyCheckpoint, hp, hb] at hr
            obtain ⟨hres, hstore⟩ := hr
            subst hstore
            simp [ht, hp, listPipelineEvents, sortByStep, insertByStep,
              buildTurnTracePayload, hb] at htr
            subst htr
            simp at href
            subst hres
            refine ⟨?_, ?_, ?_, ?_⟩
            · simp [listPipelineEvents, sortByStep, insertByStep, hp, stageName]
            · simp [href, arbiterCommit, buildRefusalProposal]
            · simp [href]
            · simp [href]


set_option maxHeartbeats 4000000 in
set_option maxRecDepth 8000 in
theorem c4_refusal_shape_witness :
    (pipelineRowsFor emptyRunStore sampleInput.runId sampleInput.turn = []
      ∧ moduleTraceEventsFor emptyRunStore sampleInput.turn = []
      ∧ processTurnViaRouter refusalOracle "uuid-4" sampleInput emptyRunStore
          = (.ok c4Res, c4Run.2)
      ∧ moduleTraceEventsFor c4Run.2 sampleInput.turn = [c4Trace]
      ∧ c4Trace.refusal = some "Refused: No valid target is in scope.")
    ∧ (((listPipelineEvents c4Run.2 sampleInput.runId sampleInput.turn).filter
          (fun e => decide (e.status = .skipped))).map (·.stage)
        = ["default_simulator", "loremaster_post", "arbiter", "proser"]
      ∧ c4Trace.committed = some
          { turn := sampleInput.turn
            operations := [{ op := .observation, scope := .viewPlayer
                             payload := .observationPayload sampleInput.playerId
                               "Refused: No valid target is in scope." sampleInput.turn
                             reason := "action refused by deterministic invalid-action policy" }]
            summary := "Action resolved with router-managed module pipeline." }
      ∧ c4Trace.narrationText = "Refused: No valid target is in scope."
      ∧ c4Res.narrationText = "Refused: No valid target is in scope.") :=
  ⟨⟨rfl, rfl, rfl, rfl, rfl⟩,
   c4_refusal_shape refusalOracle "uuid-4" sampleInput emptyRunStore c4Res c4Run.2 c4Trace
     "Refused: No valid target is in scope."
     rfl rfl rfl rfl rfl⟩

set_option maxHeartbeats 4000000 in
/-- C6 (confirmed): a fresh turn that completes has pipeline events whose
`stepNumber`s form the contiguous sequence `1..N` (as `List.range' 1 N`),
and exactly one `module_trace` event whose `pipelineEvents` array has
length `N`, the total count of pipeline events stored for the turn. -/
theorem c6_stage_contiguity_and_trace_completeness (o : ModuleOracle) (uuid : String) (input : TurnInput) (s : RunStore)
    (res : TurnResult) (s' : RunStore)
    (hp : pipelineRowsFor s input.runId input.turn = [])
    (ht : moduleTraceEventsFor s input.turn = [])
    (hr : processTurnViaRouter o uuid input s = (.ok res, s')) :
    (listPipelineEvents s' input.runId input.turn).map (·.stepNumber)
      = List.range' 1 (listPipelineEvents s' input.runId input.turn).length
    ∧ (moduleTraceEventsFor s' input.turn).map (fun tr => tr.pipelineEvents.length)
      = [(listPipelineEvents s' input.runId input.turn).length] := by
  obtain ⟨oi, ore, opre, osim, opost, oarb, opro⟩ := o
  cases hex : getTurnExecutionState s input.runId input.turn with
  | some e =>
    simp [processTurnViaRouter, createTurnExecution, appendStepEvent, hex] at hr
  | none =>
    cases oi with
    | error e =>
      simp [processTurnViaRouter, createTurnExecution, appendStepEvent, hex,
      STAGE_ORDER, runStages, runStage, listPipelineEvents, sortByStep, insertByStep,
      emptyCheckpoint, hp] at hr
    | ok r1 =>
      cases ore with
      | error e =>
        simp [processTurnViaRouter, createTurnExecution, appendStepEvent, hex,
        STAGE_ORDER, runStages, runStage, listPipelineEvents, sortByStep, insertByStep,
        emptyCheckpoint, hp] at hr
      | ok r2 =>
        cases opre with
        | error e =>
          simp [processTurnViaRouter, createTurnExecution, appendStepEvent, hex,
          STAGE_ORDER, runStages, runStage, listPipelineEvents, sortByStep, insertByStep,
          emptyCheckpoint, hp] at hr
        | ok r3 =>
          cases hb : optStringTruthy (deriveRefusalReasonFromLoremaster r1.output r3.output) with
          | false =>
            cases osim with
            | error e =>
              simp [processTurnViaRouter, createTurnExecution, appendStepEvent, hex,
              STAGE_ORDER, runStages, runStage, listPipelineEvents, sortByStep, insertByStep,
              emptyCheckpoint, hp, hb] at hr
            | ok r4 =>
              cases opost with
              | error e =>
                simp [processTurnViaRouter, createTurnExecution, appendStepEvent, hex,
                STAGE_ORDER, runStages, runStage, listPipelineEvents, sortByStep, insertByStep,
                emptyCheckpoint, hp, hb] at hr
              | ok r5 =>
                cases oarb with
                | error e =>
                  simp [processTurnViaRouter, createTurnExecution, appendStepEvent, hex,
                  STAGE_ORDER, runStages, runStage, listPipelineEvents, sortByStep, insertByStep,
                  emptyCheckpoint, hp, hb] at hr
                | ok r6 =>
                  cases opro with
                  | error e =>
                    simp [processTurnViaRouter, createTurnExecution, appendStepEvent, hex,
                    STAGE_ORDER, runStages, runStage, listPipelineEvents, sortByStep, insertByStep,
                    emptyCheckpoint, hp, hb] at hr
                  | ok r7 =>
                    simp [processTurnViaRouter, createTurnExecution, appendStepEvent, hex,
                    STAGE_ORDER, runStages, runStage, listPipelineEvents, sortByStep, insertByStep,
                    emptyCheckpoint, hp, hb] at hr
                    obtain ⟨hres, hstore⟩ := hr
                    subst hstore
                    refine ⟨?_, ?_⟩
                    · simp [listPipelineEvents, sortByStep, insertByStep, hp, List.range']
                    · simp [listPipelineEvents, sortByStep, insertByStep, hp, ht, buildTurnTracePayload, hb]
          | true =>
            simp [processTurnViaRouter, createTurnExecution, appendStepEvent, hex,
            STAGE_ORDER, runStages, runStage, listPipelineEvents, sortByStep, insertByStep,
            emptyCheckpoint, hp, hb] at hr
            obtain ⟨hres, hstore⟩ := hr
            subst hstore
            refine ⟨?_, ?_⟩
            · simp [listPipelineEvents, sortByStep, insertByStep, hp, List.range']
            · simp [listPipelineEvents, sortByStep, insertByStep, hp, ht, buildTurnTracePayload, hb]


theorem c6_stage_contiguity_and_trace_completeness_witness :
    (pipelineRowsFor emptyRunStore sampleInput.runId sampleInput.turn = []
      ∧ moduleTraceEventsFor emptyRunStore sampleInput.turn = []
      ∧ processTurnViaRouter happyOracle "uuid-6" sampleInput emptyRunStore
          = (.ok c6Res, c6Run.2))
    ∧ ((listPipelineEvents c6Run.2 sampleInput.runId sampleInput.turn).map (·.stepNumber)
        = List.range' 1 (listPipelineEvents c6Run.2 sampleInput.runId sampleInput.turn).length
      ∧ (moduleTraceEventsFor c6Run.2 sampleInput.turn).map (fun tr => tr.pipelineEvents.length)
        = [(listPipelineEvents c6Run.2 sampleInput.runId sampleInput.turn).length]) :=
  ⟨⟨rfl, rfl, rfl⟩,
   c6_stage_contiguity_and_trace_completeness happyOracle "uuid-6" sampleInput emptyRunStore
     c6Res c6Run.2 rfl rfl rfl⟩

end Morpheus
